import Mathlib

/-!
Verification development for the youtube-auto-upload pipeline.

This file shallowly embeds the parts of the Python source relevant to the
deduplication engine (`app/dedupe.py`), the approval workflow
(`app/telegram_bot.py`), the upload pipeline (`app/youtube_client.py`,
`app/workers.py`), the acquisition step (`app/ig_downloader.py`) and the
configuration defaults (`app/config.py`).  Database tables are embedded as
Lean lists of records, SQLAlchemy queries as list filters, and Python
exceptions as `Option`/`Except` results.
-/

namespace App

/-- Status enumeration, from `models.StatusEnum`. -/
inductive StatusEnum where
  | pending
  | in_progress
  | completed
  | failed
  | duplicate
  | rejected
deriving DecidableEq, Repr

/-! ## Perceptual hashes (`app/dedupe.py` via `imagehash`)

An `imagehash` perceptual hash is a fixed-length bit string; hashes are
serialized as hex strings.  `imagehash.hex_to_hash` parses a hex string into
a bit array (raising `ValueError` on an empty or non-hex string), and the
subtraction of two hashes is the Hamming distance of their bit arrays
(numpy raises on arrays of different sizes).  We embed a parsed hash as the
MSB-first concatenation of the nibbles of the hex string, and a parse or
size failure as `none`; the callers in `dedupe.py` catch every exception.
-/

/-- Value of one hex digit, `none` for a non-hex character. -/
def hexVal (c : Char) : Option Nat :=
  if '0' ≤ c ∧ c ≤ '9' then some (c.toNat - '0'.toNat)
  else if 'a' ≤ c ∧ c ≤ 'f' then some (c.toNat - 'a'.toNat + 10)
  else if 'A' ≤ c ∧ c ≤ 'F' then some (c.toNat - 'A'.toNat + 10)
  else none

/-- The four bits of a nibble, most significant first. -/
def nibbleBits (n : Nat) : List Bool :=
  [n.testBit 3, n.testBit 2, n.testBit 1, n.testBit 0]

/-- Embedding of `imagehash.hex_to_hash`: the bit string of a hex-encoded
perceptual hash, or `none` when Python would raise (empty string or a
non-hex character). -/
def hex_to_hash (s : String) : Option (List Bool) :=
  if s = "" then none
  else (s.data.mapM hexVal).map (fun l => l.flatMap nibbleBits)

/-- Hamming distance between two equal-length bit strings. -/
def hammingDist (xs ys : List Bool) : Nat :=
  (List.zipWith (fun a b => if a = b then 0 else 1) xs ys).sum

/-- Hamming distance between two serialized hashes, `none` when either hash
fails to parse or the sizes differ (the cases where `imagehash` raises). -/
def phashDiff (p1 p2 : String) : Option Nat :=
  match hex_to_hash p1, hex_to_hash p2 with
  | some h1, some h2 => if h1.length = h2.length then some (hammingDist h1 h2) else none
  | _, _ => none

/-- `Deduplicator._compare_phashes`: true iff the Hamming distance is within
the threshold; any exception is caught and yields `False`. -/
def compare_phashes (threshold : Nat) (p1 p2 : String) : Bool :=
  match phashDiff p1 p2 with
  | some d => decide (d ≤ threshold)
  | none => false

/-- `Deduplicator._phash_distance`: the Hamming distance, or 999 when an
exception is caught. -/
def phash_distance (p1 p2 : String) : Nat :=
  (phashDiff p1 p2).getD 999

/-! ## Transforms and the duplicate check (`app/dedupe.py`) -/

/-- A row of the `transforms` table (`models.Transform`), restricted to the
columns the deduplication engine reads or writes. -/
structure Transform where
  id : Nat
  phash : Option String
  status : StatusEnum
  error_message : Option String := none
deriving DecidableEq, Repr

/-- The query inside `check_duplicate_transform`: all transforms other than
the checked one whose `phash` is not NULL and whose status is COMPLETED. -/
def dedupScan (db : List Transform) (t : Transform) : List Transform :=
  db.filter (fun e => decide (e.id ≠ t.id) && e.phash.isSome && decide (e.status = .completed))

/-- The reason string built by `check_duplicate_transform` for a match. -/
def dupReason (matchedId dist : Nat) : String :=
  "Similar to transform " ++ toString matchedId ++ " (pHash distance: " ++ toString dist ++ ")"

/-- `Deduplicator.check_duplicate_transform`: returns `(is_duplicate, reason)`.
A transform with a falsy `phash` (`None` or the empty string) is reported as
not a duplicate; otherwise the scan returns the first similar transform. -/
def check_duplicate_transform (threshold : Nat) (db : List Transform) (t : Transform) :
    Bool × Option String :=
  match t.phash with
  | none => (false, none)
  | some p =>
    if p = "" then (false, none)
    else
      match (dedupScan db t).find? (fun e => compare_phashes threshold p (e.phash.getD (""))) with
      | some e => (true, some (dupReason e.id (phash_distance p (e.phash.getD ("")))))
      | none => (false, none)

/-- Update the first element of a list satisfying `p` (SQLAlchemy
`query.filter_by(...).first()` followed by a mutation and commit). -/
def updateFirst (p : α → Bool) (f : α → α) : List α → List α
  | [] => []
  | x :: rest => if p x then f x :: rest else x :: updateFirst p f rest

/-- `Deduplicator.mark_duplicate_transform`: set the matched transform's
status to DUPLICATE and its `error_message` to the reason. -/
def mark_duplicate_transform (db : List Transform) (tId : Nat) (reason : String) :
    List Transform :=
  updateFirst (fun e => decide (e.id = tId))
    (fun e => { e with status := .duplicate, error_message := some reason }) db

/-- Loop body of `process_transforms_for_duplicates`: each snapshot item is
re-checked against the current table and marked if a duplicate was found. -/
def processLoop (threshold : Nat) : List Transform → List Transform → List Transform
  | db, [] => db
  | db, t :: rest =>
    let r := check_duplicate_transform threshold db t
    let db' := if r.fst then mark_duplicate_transform db t.id (r.snd.getD ("Duplicate found")) else db
    processLoop threshold db' rest

/-- `Deduplicator.process_transforms_for_duplicates`: snapshot all COMPLETED
transforms with a `phash` and check each in order against the live table. -/
def process_transforms_for_duplicates (threshold : Nat) (db : List Transform) :
    List Transform :=
  processLoop threshold db (db.filter (fun e => decide (e.status = .completed) && e.phash.isSome))

/-- Status of the first transform with the given id, `none` if absent. -/
def transformStatus (db : List Transform) (tId : Nat) : Option StatusEnum :=
  (db.find? (fun e => decide (e.id = tId))).map (·.status)

/-! ## Settings (`app/config.py`) -/

/-- `config.Settings`, restricted to the fields the embedded components
consult, with the source's default values. -/
structure Settings where
  demo_mode : Bool := true
  telegram_admin_id : Int := 0
  phash_threshold : Nat := 10
  youtube_max_retry_attempts : Nat := 3

/-- The settings produced by `Settings()` with no environment overrides. -/
def defaultSettings : Settings := {}

/-- `TelegramBot._is_admin`: a user is authorized iff it is the configured
admin id or the application runs in demo mode. -/
def is_admin (s : Settings) (user_id : Int) : Bool :=
  decide (user_id = s.telegram_admin_id) || s.demo_mode

/-! ## Uploads and approvals (`app/telegram_bot.py`, `app/workers.py`,
`app/youtube_client.py`)

The `uploads` and `approvals` tables, the approval callback handler, and the
real-mode (authenticated) YouTube upload path.
-/

/-- A row of the `uploads` table (`models.Upload`), restricted to the columns
the approval and publish steps read or write. -/
structure Upload where
  id : Nat
  transform_id : Nat
  status : StatusEnum
  yt_video_id : Option String := none
  error_message : Option String := none
deriving DecidableEq, Repr

/-- A row of the `approvals` table (`models.Approval`), restricted to the
columns the approval workflow reads or writes; `approved_by` stores
`str(user_id)`. -/
structure Approval where
  id : Nat
  upload_id : Nat
  status : StatusEnum
  approved_by : Option String := none
deriving DecidableEq, Repr

/-- The two tables shared by the approval handler and the publish step. -/
structure BotDB where
  uploads : List Upload
  approvals : List Approval
deriving DecidableEq, Repr

/-- Status written by `TelegramBot._handle_approval` for a decision:
COMPLETED for approve, REJECTED for reject. -/
def decisionStatus (approved : Bool) : StatusEnum :=
  if approved then .completed else .rejected

/-- `TelegramBot._handle_approval`: look up the upload (answering "not
found" and changing nothing if absent); if an approval row for the upload
exists, overwrite its status and `approved_by`; then overwrite the upload's
status with the decision. -/
def handle_approval (db : BotDB) (uploadId : Nat) (approved : Bool) (userId : Int) : BotDB :=
  if db.uploads.any (fun u => decide (u.id = uploadId)) then
    { uploads :=
        updateFirst (fun u => decide (u.id = uploadId))
          (fun u => { u with status := decisionStatus approved }) db.uploads,
      approvals :=
        if db.approvals.any (fun a => decide (a.upload_id = uploadId)) then
          updateFirst (fun a => decide (a.upload_id = uploadId))
            (fun a =>
              { a with status := decisionStatus approved, approved_by := some (toString userId) })
            db.approvals
        else db.approvals }
  else db

/-- Status of the first upload with the given id. -/
def uploadStatus (db : BotDB) (uploadId : Nat) : Option StatusEnum :=
  (db.uploads.find? (fun u => decide (u.id = uploadId))).map (·.status)

/-- Status of the first approval row for the given upload id. -/
def approvalStatusOf (db : BotDB) (uploadId : Nat) : Option StatusEnum :=
  (db.approvals.find? (fun a => decide (a.upload_id = uploadId))).map (·.status)

/-- The `approved_by` of the first approval row for the given upload id. -/
def approvalBy (db : BotDB) (uploadId : Nat) : Option (Option String) :=
  (db.approvals.find? (fun a => decide (a.upload_id = uploadId))).map (·.approved_by)

/-! ### The resumable YouTube upload (`app/youtube_client.py`) -/

/-- Outcome of one `next_chunk` call inside `_resumable_upload`: a final
response carrying the video id, a progress chunk (no response yet), a server
error with status 500/502/503/504 (retried), or any other `HttpError`
(not retried, the loop breaks). -/
inductive ChunkOutcome where
  | success (videoId : String)
  | progress
  | retriableError
  | fatalError
deriving DecidableEq, Repr

/-- The `for attempt in range(max_retries)` loop of
`YouTubeClient._resumable_upload`: `collab i` is the outcome of the call in
iteration `i`; a fatal error breaks out, everything else consumes one
iteration; exhaustion returns `None`. -/
def resumableGo (collab : Nat → ChunkOutcome) : Nat → Nat → Option String
  | _, 0 => none
  | i, fuel + 1 =>
    match collab i with
    | .success v => some v
    | .progress => resumableGo collab (i + 1) fuel
    | .retriableError => resumableGo collab (i + 1) fuel
    | .fatalError => none

/-- `YouTubeClient._resumable_upload` with the configured `max_retries`. -/
def resumable_upload (collab : Nat → ChunkOutcome) (maxRetries : Nat) : Option String :=
  resumableGo collab 0 maxRetries

/-- The autoincrement primary key SQLite assigns to a freshly inserted
`uploads` row: one more than the largest existing id. -/
def freshUploadId (db : BotDB) : Nat :=
  db.uploads.foldr (fun u m => max u.id m) 0 + 1

/-- `YouTubeClient.upload_video` on the real-mode authenticated path: insert
a fresh IN_PROGRESS upload row, run the resumable upload, and on success set
the video id and COMPLETED, on exhaustion set FAILED with the error message.
Returns the fresh row's id on success and `none` on failure. -/
def upload_video (db : BotDB) (transformId : Nat) (collab : Nat → ChunkOutcome)
    (maxRetries : Nat) : BotDB × Option Nat :=
  let uid := freshUploadId db
  let row : Upload := { id := uid, transform_id := transformId, status := .in_progress }
  let db1 : BotDB := { db with uploads := db.uploads ++ [row] }
  match resumable_upload collab maxRetries with
  | some v =>
    ({ db1 with
        uploads := updateFirst (fun u => decide (u.id = uid))
          (fun u => { u with yt_video_id := some v, status := .completed }) db1.uploads },
      some uid)
  | none =>
    ({ db1 with
        uploads := updateFirst (fun u => decide (u.id = uid))
          (fun u =>
            { u with status := .failed, error_message := some ("Upload failed after retries") })
          db1.uploads },
      none)

/-- The selection query of `PipelineWorker._process_approved_uploads`:
uploads joined with approvals, keeping those where both the upload status
and the approval status are COMPLETED. -/
def selectApproved (db : BotDB) : List Upload :=
  db.uploads.filter (fun u =>
    decide (u.status = .completed) &&
    db.approvals.any (fun a => decide (a.upload_id = u.id) && decide (a.status = .completed)))

/-- Ids of the uploads selected for publication. -/
def selectApprovedIds (db : BotDB) : List Nat :=
  (selectApproved db).map (·.id)

/-- Loop body of `_process_approved_uploads`: call `upload_video` for each
selected upload, threading the table state and recording the id of every
upload passed to the publish collaborator. -/
def processApprovedGo (collab : Nat → ChunkOutcome) (maxRetries : Nat) :
    BotDB → List Upload → BotDB × List Nat
  | db, [] => (db, [])
  | db, u :: rest =>
    let r := upload_video db u.transform_id collab maxRetries
    let rec' := processApprovedGo collab maxRetries r.fst rest
    (rec'.fst, u.id :: rec'.snd)

/-- `PipelineWorker._process_approved_uploads`: select the approved uploads
once, then upload each in order.  Returns the final table state and the ids
of the uploads passed to the publish collaborator. -/
def process_approved_uploads (db : BotDB) (collab : Nat → ChunkOutcome)
    (maxRetries : Nat) : BotDB × List Nat :=
  processApprovedGo collab maxRetries db (selectApproved db)

/-! ## Acquisition (`app/ig_downloader.py`)

The `downloads` table with its UNIQUE constraint on `ig_post_id`
(`models.Download`, column `ig_post_id` is declared `unique=True`), and the
two acquisition modes of `InstagramDownloader.download_from_instagram`.
-/

/-- A row of the `downloads` table, restricted to the natural key; the other
columns (paths, sizes, caption, ...) play no role in the claims. -/
structure Download where
  ig_post_id : String
deriving DecidableEq, Repr

/-- `session.add(download); session.commit()` under the UNIQUE constraint on
`ig_post_id`: the commit raises `IntegrityError` (embedded as `.error`,
carrying the unchanged table after rollback) when the key already exists. -/
def insertDownload (tbl : List Download) (d : Download) :
    Except (List Download) (List Download) :=
  if tbl.any (fun e => decide (e.ig_post_id = d.ig_post_id)) then .error tbl
  else .ok (tbl ++ [d])

/-- The `ig_post_id` the demo path assigns to sample video `i`. -/
def demoKey (username : String) (i : Nat) : String :=
  "demo_" ++ username ++ "_" ++ toString i

/-- Loop of `InstagramDownloader._demo_download`: insert one download per
sample video, with no existence check; the first `IntegrityError` aborts the
whole call (the exception propagates), leaving the rows committed so far. -/
def demoLoop (username : String) : List Download → Nat → Nat →
    Except (List Download) (List Download)
  | tbl, _, 0 => .ok tbl
  | tbl, i, k + 1 =>
    match insertDownload tbl { ig_post_id := demoKey username i } with
    | .error t => .error t
    | .ok t => demoLoop username t (i + 1) k

/-- `InstagramDownloader._demo_download`: iterate over
`sample_videos[:max_posts]` creating one download record per sample. -/
def demo_download (username : String) (numSamples maxPosts : Nat)
    (tbl : List Download) : Except (List Download) (List Download) :=
  demoLoop username tbl 0 (min numSamples maxPosts)

/-- The real-mode loop of `InstagramDownloader.download_from_instagram`:
for each fetched post, stop once `max_posts` downloads were created, skip a
shortcode that is already in the table, and otherwise insert it. -/
def real_download_loop : List String → Nat → List Download → List Download
  | [], _, tbl => tbl
  | _ :: _, 0, tbl => tbl
  | post :: rest, k + 1, tbl =>
    if tbl.any (fun e => decide (e.ig_post_id = post)) then
      real_download_loop rest (k + 1) tbl
    else
      real_download_loop rest k (tbl ++ [{ ig_post_id := post }])

/-- The table state an acquisition call leaves behind, whether it returned
normally or aborted with a propagating `IntegrityError`. -/
def exceptTable : Except (List Download) (List Download) → List Download
  | .ok t => t
  | .error t => t

/-- At most one row per `ig_post_id`: all natural keys in the table are
pairwise distinct. -/
def distinctKeys (tbl : List Download) : Prop :=
  tbl.Pairwise (fun a b => a.ig_post_id ≠ b.ig_post_id)

/-! ## The specified lifecycle order (spec §4.6) -/

/-- Modelled from the spec: the strictly-forward lifecycle transition
relation of §4.6 ("Transitions are strictly forward; no state is ever
revisited"), expressed on this repository's `StatusEnum` values: a pending
approval may be decided (PENDING to COMPLETED or REJECTED), a completed
transform may be marked DUPLICATE, and every state may stay put; COMPLETED,
REJECTED, DUPLICATE and FAILED are terminal. -/
def specForward (s t : StatusEnum) : Bool :=
  match s, t with
  | .pending, .in_progress => true
  | .pending, .completed => true
  | .pending, .rejected => true
  | .pending, .failed => true
  | .pending, .duplicate => true
  | .in_progress, .completed => true
  | .in_progress, .failed => true
  | .completed, .duplicate => true
  | s, t => decide (s = t)

/-! ## Helper lemmas -/

/-- A string that parses as a perceptual hash is not empty. -/
theorem hex_to_hash_ne_empty {p : String} {h : List Bool}
    (hp : hex_to_hash p = some h) : p ≠ "" := by
  intro he
  rw [he] at hp
  simp [hex_to_hash] at hp

/-- When the left hash fails to parse, the comparison is not defined and the
caught exception yields `false`. -/
theorem compare_phashes_left_none (T : Nat) (p q : String)
    (h : hex_to_hash p = none) : compare_phashes T p q = false := by
  unfold compare_phashes phashDiff
  rw [h]

/-- When the right hash fails to parse, the comparison yields `false`. -/
theorem compare_phashes_right_none (T : Nat) (p q : String)
    (h : hex_to_hash q = none) : compare_phashes T p q = false := by
  unfold compare_phashes phashDiff
  rw [h]
  rcases hex_to_hash p with _ | g <;> rfl

/-- On two parsed hashes of equal size the comparison is the thresholded
Hamming distance. -/
theorem compare_phashes_eq (T : Nat) (p q : String) (h g : List Bool)
    (hp : hex_to_hash p = some h) (hq : hex_to_hash q = some g)
    (hl : h.length = g.length) :
    compare_phashes T p q = decide (hammingDist h g ≤ T) := by
  unfold compare_phashes phashDiff
  rw [hp, hq]
  simp [hl]

/-! ## Claim C1 -/

/-- Claim C1: deduplication threshold correctness.  For a pair of
fingerprints that both parse as perceptual hashes of the same size, with the
first item accepted as unique (a COMPLETED transform in the table),
`check_duplicate_transform` of the second item reports a duplicate exactly
when the Hamming distance of the fingerprints is at most the threshold `T`;
the configured default threshold is 10. -/
theorem C1_dedup_threshold (T : Nat) (t1 t2 : Transform) (p1 p2 : String)
    (h1 h2 : List Bool)
    (hp1 : t1.phash = some p1) (hp2 : t2.phash = some p2)
    (hst : t1.status = .completed) (hid : t1.id ≠ t2.id)
    (hh1 : hex_to_hash p1 = some h1) (hh2 : hex_to_hash p2 = some h2)
    (hlen : h1.length = h2.length) :
    ((check_duplicate_transform T [t1] t2).fst = true ↔ hammingDist h2 h1 ≤ T) ∧
    defaultSettings.phash_threshold = 10 := by
  refine ⟨?_, rfl⟩
  have hne : p2 ≠ "" := hex_to_hash_ne_empty hh2
  have hscan : dedupScan [t1] t2 = [t1] := by
    simp [dedupScan, List.filter, hid, hp1, hst]
  have hget : t1.phash.getD ("") = p1 := by rw [hp1]; rfl
  have hcmp : compare_phashes T p2 (t1.phash.getD ("")) = decide (hammingDist h2 h1 ≤ T) := by
    rw [hget]
    exact compare_phashes_eq T p2 p1 h2 h1 hh2 hh1 hlen.symm
  unfold check_duplicate_transform
  rw [hp2]
  simp only [hne, if_false, hscan, List.find?, hcmp]
  by_cases hd : hammingDist h2 h1 ≤ T
  · simp [hd]
  · simp [hd]

/-- Witness for C1: with the default threshold 10, a second fingerprint at
Hamming distance 4 from an accepted one is reported as a duplicate. -/
theorem C1_dedup_threshold_witness :
    (check_duplicate_transform 10
      [{ id := 1, phash := some ("00ff00ff00ff00ff"), status := .completed }]
      { id := 2, phash := some ("00ff00ff00ff00f0"), status := .completed }).fst = true := by
  have h := C1_dedup_threshold 10
    { id := 1, phash := some ("00ff00ff00ff00ff"), status := .completed }
    { id := 2, phash := some ("00ff00ff00ff00f0"), status := .completed }
    ("00ff00ff00ff00ff") ("00ff00ff00ff00f0")
    ((hex_to_hash ("00ff00ff00ff00ff")).getD [])
    ((hex_to_hash ("00ff00ff00ff00f0")).getD [])
    rfl rfl rfl (by decide) (by rfl) (by rfl) (by decide)
  exact h.1.mpr (by decide)

/-! ## Claim C3 -/

/-- Claim C3, counterexample: classifying a transform whose fingerprint is
absent does not fail with an `InvariantViolation` — `check_duplicate_transform`
returns the normal classification `(False, None)`, the very same value it
returns for a genuinely unique item. -/
theorem C3_counterexample :
    check_duplicate_transform 10 [] { id := 7, phash := none, status := .completed }
      = (false, none) ∧
    check_duplicate_transform 10 []
      { id := 8, phash := some ("00ff00ff00ff00ff"), status := .completed }
      = (false, none) := by
  constructor <;> rfl

/-- Claim C3 as amended: classify on an item without a fingerprint (a `None`
or empty `phash`) logs a warning and returns the not-a-duplicate
classification `(False, None)`; no `InvariantViolation` is raised and the
caller cannot distinguish the item from a unique one. -/
theorem C3_no_fingerprint_not_duplicate (T : Nat) (db : List Transform) (t : Transform)
    (h : t.phash = none ∨ t.phash = some ("")) :
    check_duplicate_transform T db t = (false, none) := by
  rcases h with h | h <;> simp [check_duplicate_transform, h]

/-- Witness for the amended C3: a fingerprint-less transform is classified
as not a duplicate even against a populated table. -/
theorem C3_no_fingerprint_witness :
    check_duplicate_transform 10
      [{ id := 1, phash := some ("00ff00ff00ff00ff"), status := .completed }]
      { id := 2, phash := none, status := .completed } = (false, none) :=
  C3_no_fingerprint_not_duplicate 10 _ _ (Or.inl rfl)

/-! ## Claim C9 -/

/-- Claim C9: when either fingerprint of a pair cannot be parsed as a
perceptual hash, the comparison treats the pair as not similar (distance
999, similarity false), and an item with a malformed fingerprint is
classified as not-a-duplicate against any table rather than raising. -/
theorem C9_malformed_phash (T : Nat) (db : List Transform) (t : Transform) (p q : String)
    (hp : t.phash = some p) (hbad : hex_to_hash p = none) :
    check_duplicate_transform T db t = (false, none) ∧
    compare_phashes T p q = false ∧ compare_phashes T q p = false ∧
    phash_distance p q = 999 ∧ phash_distance q p = 999 := by
  have hdiff : phashDiff p q = none := by
    unfold phashDiff
    rw [hbad]
  have hdiff' : phashDiff q p = none := by
    unfold phashDiff
    rw [hbad]
    rcases hex_to_hash q with _ | g <;> rfl
  refine ⟨?_, compare_phashes_left_none T p q hbad, compare_phashes_right_none T q p hbad,
    by simp [phash_distance, hdiff], by simp [phash_distance, hdiff']⟩
  unfold check_duplicate_transform
  rw [hp]
  by_cases he : p = ""
  · simp [he]
  · simp only [he, if_false]
    have hfind : (dedupScan db t).find?
        (fun e => compare_phashes T p (e.phash.getD (""))) = none := by
      rw [List.find?_eq_none]
      intro e _
      simp [compare_phashes_left_none T p _ hbad]
    rw [hfind]

/-- Witness for C9: the non-hex fingerprint string `"zz"` compares as not
similar to everything and its owning item is classified unique. -/
theorem C9_malformed_phash_witness :
    check_duplicate_transform 10
      [{ id := 1, phash := some ("00ff00ff00ff00ff"), status := .completed }]
      { id := 2, phash := some ("zz"), status := .completed } = (false, none) ∧
    compare_phashes 10 ("zz") ("00ff00ff00ff00ff") = false ∧
    compare_phashes 10 ("00ff00ff00ff00ff") ("zz") = false ∧
    phash_distance ("zz") ("00ff00ff00ff00ff") = 999 ∧
    phash_distance ("00ff00ff00ff00ff") ("zz") = 999 :=
  C9_malformed_phash 10
    [{ id := 1, phash := some ("00ff00ff00ff00ff"), status := .completed }]
    { id := 2, phash := some ("zz"), status := .completed }
    ("zz") ("00ff00ff00ff00ff") rfl (by rfl)

/-! ## Claim C10 -/

/-- Claim C10: in demo mode (the default configuration, `demo_mode = true`)
the admin authorization check accepts every user id, so any caller can issue
approval decisions and control commands; in production mode
(`demo_mode = false`) it accepts exactly the configured
`telegram_admin_id`. -/
theorem C10_demo_mode_admin (uid aid : Int) :
    is_admin { demo_mode := true, telegram_admin_id := aid } uid = true ∧
    is_admin { demo_mode := false, telegram_admin_id := aid } uid = decide (uid = aid) ∧
    defaultSettings.demo_mode = true := by
  refine ⟨?_, ?_, rfl⟩ <;> simp [is_admin]

/-! ## Helper lemmas about `updateFirst` and `find?` -/

/-- Updating the first match leaves `find?` pointing at its image when the
update does not change the predicate. -/
theorem updateFirst_find? (p : α → Bool) (f : α → α) (l : List α)
    (hpf : ∀ x, p (f x) = p x) :
    (updateFirst p f l).find? p = (l.find? p).map f := by
  induction l with
  | nil => rfl
  | cons x rest ih =>
    by_cases h : p x = true
    · simp [updateFirst, h, List.find?_cons, hpf]
    · have h' : p x = false := by simpa using h
      simp [updateFirst, h', List.find?_cons, ih]

/-- Updating the first `p`-match does not change `any q` when the update
preserves `q`. -/
theorem updateFirst_any (p q : α → Bool) (f : α → α) (l : List α)
    (hqf : ∀ x, q (f x) = q x) :
    (updateFirst p f l).any q = l.any q := by
  induction l with
  | nil => rfl
  | cons x rest ih =>
    by_cases h : p x = true
    · simp [updateFirst, h, hqf]
    · have h' : p x = false := by simpa using h
      simp [updateFirst, h', ih]

/-- A successful `find?` makes `any` true. -/
theorem any_of_find? {p : α → Bool} {l : List α} {x : α}
    (h : l.find? p = some x) : l.any p = true :=
  List.any_eq_true.mpr ⟨x, List.mem_of_find?_eq_some h, List.find?_some h⟩

/-- Specialization of `updateFirst_find?` to the upload status update of the
approval handler. -/
theorem find?_updateFirst_upload (uploadId : Nat) (st : StatusEnum) (l : List Upload) :
    (updateFirst (fun u => decide (u.id = uploadId))
        (fun u => { u with status := st }) l).find? (fun u => decide (u.id = uploadId))
      = (l.find? (fun u => decide (u.id = uploadId))).map (fun u => { u with status := st }) :=
  updateFirst_find? _ _ _ (fun _ => rfl)

/-- Specialization of `updateFirst_any` to the upload status update. -/
theorem any_updateFirst_upload (uploadId : Nat) (st : StatusEnum) (l : List Upload) :
    (updateFirst (fun u => decide (u.id = uploadId))
        (fun u => { u with status := st }) l).any (fun u => decide (u.id = uploadId))
      = l.any (fun u => decide (u.id = uploadId)) :=
  updateFirst_any _ _ _ _ (fun _ => rfl)

/-- Specialization of `updateFirst_find?` to the approval row update of the
approval handler. -/
theorem find?_updateFirst_approval (uploadId : Nat) (st : StatusEnum) (who : Option String)
    (l : List Approval) :
    (updateFirst (fun a => decide (a.upload_id = uploadId))
        (fun a => { a with status := st, approved_by := who }) l).find?
        (fun a => decide (a.upload_id = uploadId))
      = (l.find? (fun a => decide (a.upload_id = uploadId))).map
          (fun a => { a with status := st, approved_by := who }) :=
  updateFirst_find? _ _ _ (fun _ => rfl)

/-- Specialization of `updateFirst_any` to the approval row update. -/
theorem any_updateFirst_approval (uploadId : Nat) (st : StatusEnum) (who : Option String)
    (l : List Approval) :
    (updateFirst (fun a => decide (a.upload_id = uploadId))
        (fun a => { a with status := st, approved_by := who }) l).any
        (fun a => decide (a.upload_id = uploadId))
      = l.any (fun a => decide (a.upload_id = uploadId)) :=
  updateFirst_any _ _ _ _ (fun _ => rfl)

/-- Specialization of `updateFirst_find?` to the duplicate-marking update of
`mark_duplicate_transform`. -/
theorem find?_updateFirst_mark (tId : Nat) (reason : String) (l : List Transform) :
    (updateFirst (fun e => decide (e.id = tId))
        (fun e => { e with status := .duplicate, error_message := some reason }) l).find?
        (fun e => decide (e.id = tId))
      = (l.find? (fun e => decide (e.id = tId))).map
          (fun e => { e with status := .duplicate, error_message := some reason }) :=
  updateFirst_find? _ _ _ (fun _ => rfl)

/-! ## The approval handler -/

/-- When the upload exists, `_handle_approval` records the decision on the
first matching upload row, whatever its previous status was. -/
theorem handle_approval_uploadStatus (db : BotDB) (uploadId : Nat) (approved : Bool)
    (userId : Int)
    (hu : db.uploads.any (fun u => decide (u.id = uploadId)) = true) :
    uploadStatus (handle_approval db uploadId approved userId) uploadId
      = some (decisionStatus approved) ∧
    (handle_approval db uploadId approved userId).uploads.any
      (fun u => decide (u.id = uploadId)) = true := by
  obtain ⟨u0, hu0mem, hu0p⟩ := List.any_eq_true.mp hu
  have hfind : ∃ v, db.uploads.find? (fun u => decide (u.id = uploadId)) = some v := by
    rw [← Option.isSome_iff_exists, List.find?_isSome]
    exact ⟨u0, hu0mem, hu0p⟩
  obtain ⟨v, hv⟩ := hfind
  constructor
  · unfold handle_approval uploadStatus
    rw [if_pos hu]
    dsimp only
    rw [find?_updateFirst_upload, hv]
    rfl
  · unfold handle_approval
    rw [if_pos hu]
    dsimp only
    rw [any_updateFirst_upload]
    exact hu

/-- When both the upload and an approval row exist, `_handle_approval`
overwrites the approval row's status and `approved_by` with the present
decision, and both rows remain present afterwards. -/
theorem handle_approval_decides (db : BotDB) (uploadId : Nat) (approved : Bool)
    (userId : Int)
    (hu : db.uploads.any (fun u => decide (u.id = uploadId)) = true)
    (ha : db.approvals.any (fun a => decide (a.upload_id = uploadId)) = true) :
    uploadStatus (handle_approval db uploadId approved userId) uploadId
      = some (decisionStatus approved) ∧
    approvalStatusOf (handle_approval db uploadId approved userId) uploadId
      = some (decisionStatus approved) ∧
    approvalBy (handle_approval db uploadId approved userId) uploadId
      = some (some (toString userId)) ∧
    (handle_approval db uploadId approved userId).uploads.any
      (fun u => decide (u.id = uploadId)) = true ∧
    (handle_approval db uploadId approved userId).approvals.any
      (fun a => decide (a.upload_id = uploadId)) = true := by
  obtain ⟨a0, ha0mem, ha0p⟩ := List.any_eq_true.mp ha
  have hafind : ∃ w, db.approvals.find? (fun a => decide (a.upload_id = uploadId)) = some w := by
    rw [← Option.isSome_iff_exists, List.find?_isSome]
    exact ⟨a0, ha0mem, ha0p⟩
  obtain ⟨w, hw⟩ := hafind
  have hmain := handle_approval_uploadStatus db uploadId approved userId hu
  refine ⟨hmain.1, ?_, ?_, hmain.2, ?_⟩
  · unfold handle_approval approvalStatusOf
    rw [if_pos hu]
    dsimp only
    rw [if_pos ha, find?_updateFirst_approval, hw]
    rfl
  · unfold handle_approval approvalBy
    rw [if_pos hu]
    dsimp only
    rw [if_pos ha, find?_updateFirst_approval, hw]
    rfl
  · unfold handle_approval
    rw [if_pos hu]
    dsimp only
    rw [if_pos ha, any_updateFirst_approval]
    exact ha

/-- A concrete database with one upload awaiting its approval decision. -/
def pendingApprovalDB : BotDB :=
  { uploads := [{ id := 1, transform_id := 1, status := .pending }],
    approvals := [{ id := 1, upload_id := 1, status := .pending }] }

/-! ## Claim C2 -/

/-- Claim C2, counterexample: approval decisions are not one-shot.  On a
pending upload, a first `_handle_approval` call records a rejection; a
second call with the opposite decision does not fail with `AlreadyDecided`
but silently overwrites the stored decision (status and decider) with the
second call's values. -/
theorem C2_counterexample :
    approvalStatusOf (handle_approval pendingApprovalDB 1 false 7) 1
      = some .rejected ∧
    approvalStatusOf (handle_approval (handle_approval pendingApprovalDB 1 false 7) 1 true 8) 1
      = some .completed ∧
    approvalBy (handle_approval (handle_approval pendingApprovalDB 1 false 7) 1 true 8) 1
      = some (some ("8")) := by
  refine ⟨rfl, rfl, rfl⟩

/-- Claim C2 as amended: a second decide call on an already-decided request
does not fail — there is no `AlreadyDecided` outcome — and the stored
decision does not remain the first one: `_handle_approval` overwrites the
approval row's status, decider and the upload's status with the values of
the latest call (last writer wins). -/
theorem C2_second_decide_overwrites (db : BotDB) (uploadId : Nat) (d1 d2 : Bool)
    (u1 u2 : Int)
    (hu : db.uploads.any (fun u => decide (u.id = uploadId)) = true)
    (ha : db.approvals.any (fun a => decide (a.upload_id = uploadId)) = true) :
    approvalStatusOf (handle_approval (handle_approval db uploadId d1 u1) uploadId d2 u2)
      uploadId = some (decisionStatus d2) ∧
    approvalBy (handle_approval (handle_approval db uploadId d1 u1) uploadId d2 u2)
      uploadId = some (some (toString u2)) ∧
    uploadStatus (handle_approval (handle_approval db uploadId d1 u1) uploadId d2 u2)
      uploadId = some (decisionStatus d2) := by
  have h1 := handle_approval_decides db uploadId d1 u1 hu ha
  have h2 := handle_approval_decides _ uploadId d2 u2 h1.2.2.2.1 h1.2.2.2.2
  exact ⟨h2.2.1, h2.2.2.1, h2.1⟩

/-- Witness for the amended C2: rejecting and then approving upload 1 leaves
the approval recorded as approved by the second caller. -/
theorem C2_second_decide_witness :
    approvalStatusOf (handle_approval (handle_approval pendingApprovalDB 1 false 7) 1 true 8) 1
      = some (decisionStatus true) :=
  (C2_second_decide_overwrites pendingApprovalDB 1 false true 7 8 (by decide) (by decide)).1

/-! ## Claim C7 -/

/-- Claim C7, counterexample: stage progress is not monotone.  Upload 1 is
observed in the terminal REJECTED stage after the first decision, and a
later approval decision moves it to COMPLETED (approved), a transition the
specified forward order does not allow. -/
theorem C7_counterexample :
    uploadStatus (handle_approval pendingApprovalDB 1 false 7) 1 = some .rejected ∧
    uploadStatus (handle_approval (handle_approval pendingApprovalDB 1 false 7) 1 true 8) 1
      = some .completed ∧
    specForward .rejected .completed = false := by
  refine ⟨rfl, rfl, rfl⟩

/-- Claim C7 as amended: stage progress is monotone for first-time
operations — deciding an upload whose status is still PENDING moves it
forward to the decision status, and marking a COMPLETED transform moves it
forward to DUPLICATE — but a repeated approval decision can move an
already-decided upload out of its terminal state. -/
theorem C7_monotone_first_operations (db : BotDB) (uploadId : Nat) (approved : Bool)
    (userId : Int) (tdb : List Transform) (tId : Nat) (reason : String)
    (hpend : uploadStatus db uploadId = some .pending)
    (hcomp : transformStatus tdb tId = some .completed) :
    uploadStatus (handle_approval db uploadId approved userId) uploadId
      = some (decisionStatus approved) ∧
    specForward .pending (decisionStatus approved) = true ∧
    transformStatus (mark_duplicate_transform tdb tId reason) tId = some .duplicate ∧
    specForward .completed .duplicate = true := by
  have hufind : ∃ v, db.uploads.find? (fun u => decide (u.id = uploadId)) = some v := by
    unfold uploadStatus at hpend
    rcases hfv : db.uploads.find? (fun u => decide (u.id = uploadId)) with _ | v
    · rw [hfv] at hpend; cases hpend
    · exact ⟨v, hfv⟩
  obtain ⟨v, hv⟩ := hufind
  have htfind : ∃ w, tdb.find? (fun e => decide (e.id = tId)) = some w := by
    unfold transformStatus at hcomp
    rcases hfw : tdb.find? (fun e => decide (e.id = tId)) with _ | w
    · rw [hfw] at hcomp; cases hcomp
    · exact ⟨w, hfw⟩
  obtain ⟨w, hw⟩ := htfind
  refine ⟨(handle_approval_uploadStatus db uploadId approved userId (any_of_find? hv)).1,
    ?_, ?_, rfl⟩
  · cases approved <;> rfl
  · unfold mark_duplicate_transform transformStatus
    rw [find?_updateFirst_mark, hw]
    rfl

/-- Witness for the amended C7: deciding the pending upload 1 and marking a
completed transform both move the items forward. -/
theorem C7_monotone_witness :
    uploadStatus (handle_approval pendingApprovalDB 1 true 7) 1
      = some (decisionStatus true) ∧
    transformStatus
      (mark_duplicate_transform
        [{ id := 4, phash := some ("00ff00ff00ff00ff"), status := .completed }] 4 ("r")) 4
      = some .duplicate := by
  have h := C7_monotone_first_operations pendingApprovalDB 1 true 7
    [{ id := 4, phash := some ("00ff00ff00ff00ff"), status := .completed }] 4 ("r")
    (by decide) (by decide)
  exact ⟨h.1, h.2.2.1⟩

/-! ## The publish step -/

/-- A collaborator that fails every chunk call with a retriable server error
exhausts the retry loop: `_resumable_upload` returns `None`. -/
theorem resumableGo_allFail (collab : Nat → ChunkOutcome)
    (hf : ∀ j, collab j = ChunkOutcome.retriableError) :
    ∀ (fuel i : Nat), resumableGo collab i fuel = none := by
  intro fuel
  induction fuel with
  | zero => intro i; rfl
  | succ n ih =>
    intro i
    unfold resumableGo
    rw [hf i]
    exact ih (i + 1)

/-- Every existing upload id is below the fresh id a new row receives. -/
theorem upload_id_lt_fresh (db : BotDB) (u : Upload) (hu : u ∈ db.uploads) :
    u.id < freshUploadId db := by
  have h : ∀ l : List Upload, ∀ v ∈ l, v.id ≤ l.foldr (fun w m => max w.id m) 0 := by
    intro l
    induction l with
    | nil => intro v hv; cases hv
    | cons x rest ih =>
      intro v hv
      rcases List.mem_cons.mp hv with h | h
      · subst h; exact le_max_left _ _
      · exact le_trans (ih v h) (le_max_right _ _)
  have := h db.uploads u hu
  unfold freshUploadId
  omega

/-- `updateFirst` on a list whose only match is the appended element updates
exactly that element. -/
theorem updateFirst_append (p : α → Bool) (f : α → α) (l : List α) (x : α)
    (hl : ∀ y ∈ l, p y = false) (hx : p x = true) :
    updateFirst p f (l ++ [x]) = l ++ [f x] := by
  induction l with
  | nil => simp [updateFirst, hx]
  | cons y rest ih =>
    have hy := hl y (List.mem_cons_self y rest)
    simp only [List.cons_append, updateFirst]
    rw [if_neg (by simp [hy])]
    simp only [List.append_eq]
    rw [ih (fun z hz => hl z (List.mem_cons_of_mem y hz))]

/-- `find?` on a list whose only match is the appended element returns it. -/
theorem find?_append_right (p : α → Bool) (l : List α) (x : α)
    (hl : ∀ y ∈ l, p y = false) (hx : p x = true) :
    (l ++ [x]).find? p = some x := by
  induction l with
  | nil => simp [List.find?, hx]
  | cons y rest ih =>
    have hy := hl y (List.mem_cons_self y rest)
    rw [List.cons_append, List.find?_cons_of_neg _ (by simp [hy])]
    exact ih (fun z hz => hl z (List.mem_cons_of_mem y hz))

/-- `upload_video` under an always-failing collaborator: the call returns
`None` and its whole effect is to append one FAILED upload row carrying the
retry-exhaustion error message; the pre-existing rows and the approvals are
untouched. -/
theorem upload_video_fail (db : BotDB) (tid : Nat) (collab : Nat → ChunkOutcome)
    (maxR : Nat) (hf : ∀ j, collab j = ChunkOutcome.retriableError) :
    upload_video db tid collab maxR =
      ({ uploads := db.uploads ++
            [{ id := freshUploadId db, transform_id := tid, status := .failed,
               error_message := some ("Upload failed after retries") }],
         approvals := db.approvals }, none) := by
  unfold upload_video
  rw [show resumable_upload collab maxR = none from resumableGo_allFail collab hf maxR 0]
  dsimp only
  rw [updateFirst_append _ _ db.uploads _
    (fun y hy => by
      have := upload_id_lt_fresh db y hy
      simp only [decide_eq_false_iff_not]
      omega)
    (by simp)]

/-- Appending an upload row leaves every previously selected approved upload
selected (the selection predicate only consults the untouched approvals). -/
theorem selectApproved_monotone_append (db : BotDB) (row : Upload) (i : Nat)
    (hi : i ∈ selectApprovedIds db) :
    i ∈ selectApprovedIds { uploads := db.uploads ++ [row], approvals := db.approvals } := by
  unfold selectApprovedIds selectApproved at hi ⊢
  dsimp only
  rw [List.filter_append, List.map_append]
  exact List.mem_append_left _ hi

/-- A concrete database with one approved upload awaiting publication. -/
def approvedUploadDB : BotDB :=
  { uploads := [{ id := 1, transform_id := 1, status := .completed }],
    approvals := [{ id := 1, upload_id := 1, status := .completed }] }

/-! ## Claim C6 -/

/-- Claim C6, counterexample: retry exhaustion is not terminal for the item.
After a pipeline run in which the YouTube collaborator fails all
`max_retries = 3` attempts, the database holds a FAILED upload record — but
the originally approved upload 1 is still COMPLETED and approved, and the
next `_process_approved_uploads` run passes upload 1 to the publish
collaborator again. -/
theorem C6_counterexample :
    ((process_approved_uploads approvedUploadDB (fun _ => ChunkOutcome.retriableError) 3).fst.uploads.map
        (fun u => (u.id, u.status)))
      = [(1, .completed), (2, .failed)] ∧
    (process_approved_uploads
        (process_approved_uploads approvedUploadDB (fun _ => ChunkOutcome.retriableError) 3).fst
        (fun _ => ChunkOutcome.retriableError) 3).snd = [1] := by
  constructor <;> rfl

/-- Claim C6 as amended: when the collaborator call fails `maxRetries` times
consecutively, the Upload record created by that `upload_video` call ends in
the terminal FAILED state with the retry-exhaustion error message and the
call returns `None`; however the approved upload that triggered it stays in
the approved eligible set, so every subsequent pipeline run retries it. -/
theorem C6_failed_upload_retried (db : BotDB) (tid maxR : Nat)
    (collab : Nat → ChunkOutcome) (i : Nat)
    (hf : ∀ j, collab j = ChunkOutcome.retriableError)
    (hi : i ∈ selectApprovedIds db) :
    (upload_video db tid collab maxR).snd = none ∧
    (upload_video db tid collab maxR).fst.uploads.find?
        (fun u => decide (u.id = freshUploadId db))
      = some { id := freshUploadId db, transform_id := tid, status := .failed,
               error_message := some ("Upload failed after retries") } ∧
    i ∈ selectApprovedIds (upload_video db tid collab maxR).fst := by
  rw [upload_video_fail db tid collab maxR hf]
  refine ⟨rfl, ?_, selectApproved_monotone_append db _ i hi⟩
  dsimp only
  exact find?_append_right _ db.uploads _
    (fun y hy => by
      have := upload_id_lt_fresh db y hy
      simp only [decide_eq_false_iff_not]
      omega)
    (by simp)

/-- Witness for the amended C6: after a failed upload attempt, upload 1 is
still in the approved eligible set. -/
theorem C6_failed_upload_witness :
    1 ∈ selectApprovedIds
      (upload_video approvedUploadDB 1 (fun _ => ChunkOutcome.retriableError) 3).fst :=
  (C6_failed_upload_retried approvedUploadDB 1 3 (fun _ => ChunkOutcome.retriableError) 1
    (fun _ => rfl) (by decide)).2.2

/-! ## Claim C8 -/

/-- The ids passed to the publish collaborator are exactly the ids of the
uploads selected up front. -/
theorem processApprovedGo_snd (collab : Nat → ChunkOutcome) (maxR : Nat) :
    ∀ (sel : List Upload) (db : BotDB),
      (processApprovedGo collab maxR db sel).snd = sel.map (·.id) := by
  intro sel
  induction sel with
  | nil => intro db; rfl
  | cons u rest ih =>
    intro db
    simp [processApprovedGo, ih]

/-- Claim C8: never publish unapproved content.  Every upload id passed to
the publish collaborator during `_process_approved_uploads` belongs to an
upload whose status is COMPLETED (approved) and for which an approval record
in the approved state exists in the database the run started from. -/
theorem C8_publish_only_approved (db : BotDB) (collab : Nat → ChunkOutcome)
    (maxR i : Nat)
    (hi : i ∈ (process_approved_uploads db collab maxR).snd) :
    db.approvals.any
      (fun a => decide (a.upload_id = i) && decide (a.status = .completed)) = true ∧
    db.uploads.any
      (fun u => decide (u.id = i) && decide (u.status = .completed)) = true := by
  rw [process_approved_uploads, processApprovedGo_snd] at hi
  obtain ⟨u, hu, hui⟩ := List.mem_map.mp hi
  unfold selectApproved at hu
  have hmem := List.mem_filter.mp hu
  have h2 := hmem.2
  rw [Bool.and_eq_true] at h2
  obtain ⟨hst, happ⟩ := h2
  subst hui
  refine ⟨happ, List.any_eq_true.mpr ⟨u, hmem.1, ?_⟩⟩
  simp [hst]

/-- Witness for C8: upload 1, the only upload the run passes to publish, has
its approval record in the approved state. -/
theorem C8_publish_only_approved_witness :
    approvedUploadDB.approvals.any
      (fun a => decide (a.upload_id = 1) && decide (a.status = .completed)) = true :=
  (C8_publish_only_approved approvedUploadDB (fun _ => ChunkOutcome.success ("vid")) 3 1
    (by decide)).1

/-! ## Acquisition -/

/-- Appending a download whose key is absent preserves key distinctness. -/
theorem distinctKeys_append {tbl : List Download} {d : Download}
    (hd : distinctKeys tbl)
    (hc : tbl.any (fun e => decide (e.ig_post_id = d.ig_post_id)) = false) :
    distinctKeys (tbl ++ [d]) := by
  unfold distinctKeys at hd ⊢
  rw [List.pairwise_append]
  refine ⟨hd, by simp, ?_⟩
  intro a ha b hb he
  rw [show b = d from by simpa using hb] at he
  have hany : tbl.any (fun e => decide (e.ig_post_id = d.ig_post_id)) = true :=
    List.any_eq_true.mpr ⟨a, ha, by simp [he]⟩
  rw [hc] at hany
  cases hany

/-- A rejected insert leaves the table unchanged (rollback). -/
theorem insertDownload_error_eq {tbl t : List Download} {d : Download}
    (h : insertDownload tbl d = .error t) : t = tbl := by
  unfold insertDownload at h
  split at h
  · injection h with h1
    exact h1.symm
  · cases h

/-- A successful insert preserves key distinctness: the UNIQUE constraint
admits the row only when its key is absent. -/
theorem insertDownload_ok_distinct {tbl t : List Download} {d : Download}
    (hd : distinctKeys tbl) (h : insertDownload tbl d = .ok t) : distinctKeys t := by
  unfold insertDownload at h
  split at h
  · cases h
  · rename_i hc
    injection h with h1
    subst h1
    exact distinctKeys_append hd (Bool.eq_false_iff.mpr hc)

/-- The demo-mode download loop preserves key distinctness, whether it
completes or aborts on an `IntegrityError`. -/
theorem demoLoop_distinct (username : String) :
    ∀ (k : Nat) (tbl : List Download) (i : Nat), distinctKeys tbl →
      distinctKeys (exceptTable (demoLoop username tbl i k)) := by
  intro k
  induction k with
  | zero => intro tbl i h; exact h
  | succ n ih =>
    intro tbl i h
    unfold demoLoop
    rcases hins : insertDownload tbl { ig_post_id := demoKey username i } with t | t
    · have ht := insertDownload_error_eq hins
      subst ht
      exact h
    · exact ih t (i + 1) (insertDownload_ok_distinct h hins)

/-- The real-mode download loop preserves key distinctness: known shortcodes
are skipped, new ones are inserted once. -/
theorem real_download_loop_distinct :
    ∀ (posts : List String) (k : Nat) (tbl : List Download), distinctKeys tbl →
      distinctKeys (real_download_loop posts k tbl) := by
  intro posts
  induction posts with
  | nil => intro k tbl h; exact h
  | cons post rest ih =>
    intro k tbl h
    cases k with
    | zero => exact h
    | succ n =>
      unfold real_download_loop
      by_cases hc : tbl.any (fun e => decide (e.ig_post_id = post)) = true
      · rw [if_pos hc]
        exact ih (n + 1) tbl h
      · rw [if_neg hc]
        exact ih n _ (distinctKeys_append h (Bool.eq_false_iff.mpr hc))

/-! ## Claim C4 -/

/-- Claim C4: no duplicate source.  Starting from a table with pairwise
distinct `ig_post_id` keys, both acquisition modes leave the keys pairwise
distinct — at most one Download record exists per source key.  Real mode
skips an already-known shortcode; demo mode, which performs no existence
check, has its re-insert of an already-known key rejected by the UNIQUE
constraint: the call aborts with the table unchanged. -/
theorem C4_unique_source_key (username : String) (numSamples maxPosts : Nat)
    (posts : List String) (tbl : List Download) (h : distinctKeys tbl) :
    distinctKeys (exceptTable (demo_download username numSamples maxPosts tbl)) ∧
    distinctKeys (real_download_loop posts maxPosts tbl) ∧
    (∀ m, min numSamples maxPosts = m + 1 →
      tbl.any (fun e => decide (e.ig_post_id = demoKey username 0)) = true →
      demo_download username numSamples maxPosts tbl = .error tbl) := by
  refine ⟨demoLoop_distinct username _ tbl 0 h,
    real_download_loop_distinct posts maxPosts tbl h, ?_⟩
  intro m hm hkey
  have hins : insertDownload tbl { ig_post_id := demoKey username 0 } = .error tbl := by
    unfold insertDownload
    rw [if_pos hkey]
  unfold demo_download
  rw [hm]
  unfold demoLoop
  rw [hins]

/-- Witness for C4: one demo re-run over a table already holding
`demo_u_0`, and a real-mode run with a repeated shortcode, both keep the
keys distinct. -/
theorem C4_unique_source_key_witness :
    distinctKeys (exceptTable (demo_download ("u") 2 5 [{ ig_post_id := "demo_u_0" }])) ∧
    distinctKeys (real_download_loop [("a"), ("b"), ("a")] 5 [{ ig_post_id := "demo_u_0" }]) := by
  have h := C4_unique_source_key ("u") 2 5 [("a"), ("b"), ("a")]
    [{ ig_post_id := "demo_u_0" }] (by simp [distinctKeys])
  exact ⟨h.1, h.2.1⟩

/-! ## Claim C5 -/

/-- Three completed transforms at pairwise Hamming distances
d(1,2) = 8, d(2,3) = 8, d(1,3) = 16 (threshold 10). -/
def dupChainDB : List Transform :=
  [{ id := 1, phash := some ("0000000000000000"), status := .completed },
   { id := 2, phash := some ("ff00000000000000"), status := .completed },
   { id := 3, phash := some ("ffff000000000000"), status := .completed }]

/-- Claim C5, counterexample: the near-duplicate scan does not compare only
against accepted unique items.  Processing `dupChainDB` marks transform 1 as
a duplicate (its scan matched transform 2, then still merely COMPLETED and
never accepted as unique — transform 2 itself ends up DUPLICATE), although
transform 1 is at distance 16 > 10 from transform 3, the only item that
reaches the unique (COMPLETED) state. -/
theorem C5_counterexample :
    (process_transforms_for_duplicates 10 dupChainDB).map (fun t => (t.id, t.status))
      = [(1, .duplicate), (2, .duplicate), (3, .completed)] ∧
    phash_distance ("0000000000000000") ("ff00000000000000") = 8 ∧
    phash_distance ("0000000000000000") ("ffff000000000000") = 16 := by
  refine ⟨rfl, rfl, rfl⟩

/-- Claim C5 as amended: the set the duplicate scan compares against is the
set of all transforms with a non-null fingerprint and status COMPLETED other
than the checked item itself — transforms already marked DUPLICATE never
enter it, but completed transforms not yet classified do, so an item may be
marked duplicate by comparison with an item that never reaches unique. -/
theorem C5_scan_is_completed_transforms (db : List Transform) (t e : Transform)
    (hmem : e ∈ db) :
    (e.status = .duplicate → e ∉ dedupScan db t) ∧
    (e.id ≠ t.id → e.phash.isSome = true → e.status = .completed → e ∈ dedupScan db t) := by
  constructor
  · intro hdup hin
    have hp := (List.mem_filter.mp hin).2
    rw [hdup] at hp
    simp at hp
  · intro h1 h2 h3
    exact List.mem_filter.mpr ⟨hmem, by simp [h1, h2, h3]⟩

/-- A table holding one completed and one already-marked-duplicate
transform. -/
def scanWitnessDB : List Transform :=
  [{ id := 1, phash := some ("bb"), status := .completed },
   { id := 2, phash := some ("aa"), status := .duplicate }]

/-- Witness for the amended C5: scanning for a fresh item, the marked
duplicate (transform 2) is excluded from the comparison set and the
completed transform 1 is included. -/
theorem C5_scan_witness :
    ({ id := 2, phash := some ("aa"), status := .duplicate } : Transform)
        ∉ dedupScan scanWitnessDB { id := 9, phash := some ("cc"), status := .completed } ∧
    ({ id := 1, phash := some ("bb"), status := .completed } : Transform)
        ∈ dedupScan scanWitnessDB { id := 9, phash := some ("cc"), status := .completed } := by
  refine ⟨(C5_scan_is_completed_transforms scanWitnessDB
      { id := 9, phash := some ("cc"), status := .completed }
      { id := 2, phash := some ("aa"), status := .duplicate } (by decide)).1 rfl,
    (C5_scan_is_completed_transforms scanWitnessDB
      { id := 9, phash := some ("cc"), status := .completed }
      { id := 1, phash := some ("bb"), status := .completed } (by decide)).2
      (by decide) rfl rfl⟩

end App

